import Mathlib

/-!
Verification of `tools/validate-aiif.py`, an AIIF conformance checker.

The script validates a parsed JSON document against a parsed JSON checklist:
eleven rules each emit zero or more `CheckResult`s, a reporter prints the
results with severity-partitioned failure counts and a compliance line, and
the exit status is derived from the MUST/SHOULD failure counts plus a
`--strict-should` flag.

The embedding models parsed JSON values (`JVal`), Python dict operations
(`.get` with its absent/None conflation, key containment, assignment with
last-write-wins), Python `str`/`repr` rendering as used by the f-strings in
the script (restricted to the printable characters that actually occur), and
the places where the script can raise at runtime: iterating a non-list
`checks` value, calling `.get` on a non-dict checklist entry, and hashing an
unhashable (list/dict) param `name`/`location` during set membership tests.
Those fallible paths return `Except Unit`; everything else is pure.

Python's numeric tower is modelled with `Int` only (the script never inspects
numeric values, only types), and Python's `True == 1` equality conflation is
not modelled (no rule compares a bool with a number).
-/

set_option linter.unusedVariables false

/-- A parsed JSON value, as produced by `json.load`. -/
inductive JVal where
  | null : JVal
  | bool : Bool → JVal
  | num : Int → JVal
  | str : String → JVal
  | arr : List JVal → JVal
  | obj : List (String × JVal) → JVal

/-- A parsed JSON object: the field list of a Python dict (keys unique). -/
abbrev Jobj := List (String × JVal)

/-- First-match association lookup, the semantics of Python `dict[...]`
on dicts with unique keys. -/
def alookup : Jobj → String → Option JVal
  | [], _ => none
  | (k, v) :: rest, key => if k = key then some v else alookup rest key

/-- Python `key in dict`. -/
def hasKey (m : Jobj) (k : String) : Bool :=
  (alookup m k).isSome

/-- Python `dict.get(key)`: `None` both when the key is absent and when the
stored value is JSON `null` — the script relies on this conflation. -/
def pyGet (m : Jobj) (k : String) : JVal :=
  (alookup m k).getD JVal.null

/-- Python `dict.get(key, default)`: the default applies only when the key is
absent; a stored `null` is returned as `null`. -/
def pyGetD (m : Jobj) (k : String) (d : JVal) : JVal :=
  (alookup m k).getD d

/-- Python `dict[key] = value`: replace in place if the key exists, else
append — last write wins for the value. -/
def setKey : Jobj → String → JVal → Jobj
  | [], k, v => [(k, v)]
  | (k', v') :: rest, k, v =>
      if k' = k then (k, v) :: rest else (k', v') :: setKey rest k v

/-- Python `isinstance(v, dict)`. -/
def isObjV : JVal → Bool
  | .obj _ => true
  | _ => false

/-- Python `isinstance(v, list)`. -/
def isArrV : JVal → Bool
  | .arr _ => true
  | _ => false

/-- Python `isinstance(v, str)`. -/
def isStrV : JVal → Bool
  | .str _ => true
  | _ => false

/-- Whether a parsed JSON value is hashable in Python: lists and dicts are
not, and hashing one (e.g. in a set membership test) raises `TypeError`. -/
def hashableV : JVal → Bool
  | .arr _ => false
  | .obj _ => false
  | _ => true

/-- Python `==` on hashable parsed-JSON values (`None`, bools, numbers,
strings). Only called on values that passed the hashability check, so the
list/dict cases are unreachable in the rules that use it. -/
def scalarEq : JVal → JVal → Bool
  | .null, .null => true
  | .bool a, .bool b => a == b
  | .num a, .num b => a == b
  | .str a, .str b => a == b
  | _, _ => false

/-- The single-quote character, for building Python `repr` output. -/
def squo : Char := Char.ofNat 39

/-- Escape one character of a Python string literal rendered with quote
character `q` (covers the printable characters used by the script). -/
def pyEscapeChar (q : Char) (c : Char) : String :=
  if c = '\\' then "\\\\"
  else if c = q then "\\" ++ String.singleton q
  else if c = '\n' then "\\n"
  else if c = '\r' then "\\r"
  else if c = '\t' then "\\t"
  else String.singleton c

/-- Python `repr` of a string: single quotes unless the string contains a
single quote and no double quote. -/
def pyReprString (s : String) : String :=
  let q := if s.toList.contains squo && !s.toList.contains '"' then '"' else squo
  String.singleton q ++ String.join (s.toList.map (pyEscapeChar q)) ++ String.singleton q

mutual

/-- Python `repr` of a parsed JSON value. -/
def pyRepr : JVal → String
  | .null => "None"
  | .bool true => "True"
  | .bool false => "False"
  | .num n => toString n
  | .str s => pyReprString s
  | .arr xs => "[" ++ pyReprSeq xs ++ "]"
  | .obj kvs => "\x7b" ++ pyReprFields kvs ++ "\x7d"

/-- Comma-separated `repr`s of list elements. -/
def pyReprSeq : List JVal → String
  | [] => ""
  | [x] => pyRepr x
  | x :: y :: xs => pyRepr x ++ ", " ++ pyReprSeq (y :: xs)

/-- Comma-separated `repr`s of dict entries. -/
def pyReprFields : List (String × JVal) → String
  | [] => ""
  | [(k, v)] => pyReprString k ++ ": " ++ pyRepr v
  | (k, v) :: e :: kvs => pyReprString k ++ ": " ++ pyRepr v ++ ", " ++ pyReprFields (e :: kvs)

end

/-- Python `str` of a parsed JSON value, as used by f-string interpolation. -/
def pyStr : JVal → String
  | .str s => s
  | v => pyRepr v

/-- Python `repr` of a list of strings, as f-strings render `{details}`. -/
def pyReprStrList (xs : List String) : String :=
  "[" ++ String.intercalate ", " (xs.map pyReprString) ++ "]"

/-- Python `repr` of a list of string pairs, as f-strings render a sorted
list of `(method, path)` tuples. -/
def pyReprPairList (xs : List (String × String)) : String :=
  "[" ++ String.intercalate ", " (xs.map (fun p => "(" ++ pyReprString p.1 ++ ", " ++ pyReprString p.2 ++ ")")) ++ "]"

/-- Strict lexicographic order on code points, Python `<` on strings. -/
def charsLt : List Char → List Char → Bool
  | [], [] => false
  | [], _ :: _ => true
  | _ :: _, [] => false
  | c :: cs, d :: ds =>
      if c.val < d.val then true
      else if c.val = d.val then charsLt cs ds
      else false

/-- Python `<` on strings. -/
def strLtB (a b : String) : Bool := charsLt a.toList b.toList

/-- Python `<=` on strings. -/
def strLeB (a b : String) : Bool := !strLtB b a

/-- Python `<=` on pairs of strings (tuple lexicographic order). -/
def pairLeB (a b : String × String) : Bool :=
  if a.1 = b.1 then strLeB a.2 b.2 else strLtB a.1 b.1

/-- Insert into a list sorted by `le`. -/
def insSorted (le : α → α → Bool) (x : α) : List α → List α
  | [] => [x]
  | y :: ys => if le x y then x :: y :: ys else y :: insSorted le x ys

/-- Insertion sort, the ordering contract of Python `sorted`. -/
def isort (le : α → α → Bool) : List α → List α
  | [] => []
  | x :: xs => insSorted le x (isort le xs)

/-- Add to a Python set modelled as a duplicate-free list (membership and
sorted rendering are the only operations the script uses). -/
def addSet [BEq α] (l : List α) (x : α) : List α :=
  if l.contains x then l else l ++ [x]

/-- The allowed HTTP methods (`METHODS` in the script). -/
def METHODS : List String := ["GET", "POST", "PUT", "PATCH", "DELETE"]

/-- The allowed parameter locations (`PARAM_LOCATIONS`). -/
def PARAM_LOCATIONS : List String := ["path", "query", "body"]

/-- The allowed auth types (`AUTH_TYPES`). -/
def AUTH_TYPES : List String := ["none", "api_key", "bearer", "basic", "oauth2"]

/-- The recognized constraint fields (`CONSTRAINT_FIELDS`). -/
def CONSTRAINT_FIELDS : List String :=
  ["minimum", "maximum", "min_length", "max_length", "pattern", "format"]

/-- A `CheckResult` as constructed in the script: `level` is whatever value
the checklist entry stored under `"level"` (any JSON value), not a
normalized enumeration. -/
structure CheckResult where
  check_id : String
  level : JVal
  passed : Bool
  message : String

/-- One `(check_id, passed, message)` outcome as a rule hands it to
`Validator._emit`. -/
structure Outcome where
  cid : String
  passed : Bool
  message : String

/-- The indexed checklist `Validator.check_defs`. -/
abbrev CDefs := List (String × JVal)

/-- One step of `Validator._index_checks`: `item.get("id")` requires `item`
to be a dict — any other element raises `AttributeError`. -/
def index_one (acc : CDefs) (item : JVal) : Except Unit CDefs :=
  match item with
  | .obj kvs =>
      match pyGet kvs "id" with
      | .str s => .ok (setKey acc s item)
      | _ => .ok acc
  | _ => .error ()

/-- `Validator._index_checks`: index `checklist.get("checks", [])` by string
`id`, last write wins. Iterating a non-list `checks` value either does
nothing (empty dict, empty string) or raises (`AttributeError` on the first
string element, `TypeError` on a non-iterable). -/
def index_checks (checklist : Jobj) : Except Unit CDefs :=
  match pyGetD checklist "checks" (JVal.arr []) with
  | .arr items => items.foldlM index_one []
  | .obj [] => .ok []
  | .str s => if s == "" then .ok [] else .error ()
  | _ => .error ()

/-- The severity lookup in `Validator._emit`:
`check_defs.get(check_id, {}).get("level", "INFO")`. The stored entry is
always a dict, and a present `level` value is returned verbatim. -/
def level_of (cd : CDefs) (id : String) : JVal :=
  match alookup cd id with
  | some (.obj kvs) => pyGetD kvs "level" (JVal.str "INFO")
  | _ => JVal.str "INFO"

/-- `Validator._emit` applied to one outcome: attach the looked-up level. -/
def emit_result (cd : CDefs) (t : Outcome) : CheckResult :=
  ⟨t.cid, level_of cd t.cid, t.passed, t.message⟩

/-- The endpoint list every per-endpoint rule starts from:
`doc.get("endpoints", []) if isinstance(doc.get("endpoints"), list) else []`. -/
def endpoints_of (doc : Jobj) : List JVal :=
  match pyGet doc "endpoints" with
  | .arr xs => xs
  | _ => []

/-- Python `str.strip()`: drop leading and trailing whitespace. -/
def pyStrip (s : String) : String :=
  String.mk ((s.toList.dropWhile Char.isWhitespace).reverse.dropWhile Char.isWhitespace).reverse

/-- The top-level keys required by rule 1. -/
def required_top_level : List String := ["aiif_version", "info", "endpoints"]

/-- The `missing` list of `_check_top_level_required_fields`. -/
def top_level_missing (doc : Jobj) : List String :=
  required_top_level.filter (fun k => !hasKey doc k)

/-- `aiif_version_ok` of rule 1: a string that is non-empty after strip. -/
def aiif_version_ok (doc : Jobj) : Bool :=
  match pyGet doc "aiif_version" with
  | .str s => !(pyStrip s == "")
  | _ => false

/-- The `ok` flag of rule 1. -/
def top_level_ok (doc : Jobj) : Bool :=
  (top_level_missing doc).isEmpty
    && aiif_version_ok doc
    && isArrV (pyGet doc "endpoints")
    && isObjV (pyGet doc "info")

/-- The `details` list rule 1 renders on failure: the missing keys plus the
`aiif_version` complaint when applicable. -/
def top_level_details (doc : Jobj) : List String :=
  top_level_missing doc
    ++ (if aiif_version_ok doc then [] else ["aiif_version (must be non-empty string)"])

/-- The message of rule 1. -/
def top_level_msg (doc : Jobj) : String :=
  if top_level_ok doc then "top-level required fields present"
  else "missing/invalid top-level fields: " ++ pyReprStrList (top_level_details doc)

/-- Rule 1, `_check_top_level_required_fields`. -/
def check_top_level_required_fields (doc : Jobj) : List Outcome :=
  [⟨"impl.top_level.required_fields", top_level_ok doc, top_level_msg doc⟩]

/-- The four accumulators of `_check_endpoint_uniqueness`. -/
structure EpUniqState where
  names : List String
  dup_names : List String
  method_paths : List (String × String)
  dup_method_paths : List (String × String)

/-- One endpoint step of `_check_endpoint_uniqueness`: track duplicate
string names and duplicate string `(method, path)` pairs. -/
def ep_uniq_step (st : EpUniqState) (ep : JVal) : EpUniqState :=
  match ep with
  | .obj kvs =>
      let st1 :=
        match pyGet kvs "name" with
        | .str n =>
            if st.names.contains n
            then { st with dup_names := addSet st.dup_names n, names := addSet st.names n }
            else { st with names := addSet st.names n }
        | _ => st
      match pyGet kvs "method", pyGet kvs "path" with
      | .str m, .str p =>
          if st1.method_paths.contains (m, p)
          then { st1 with dup_method_paths := addSet st1.dup_method_paths (m, p),
                          method_paths := addSet st1.method_paths (m, p) }
          else { st1 with method_paths := addSet st1.method_paths (m, p) }
      | _, _ => st1
  | _ => st

/-- Rule 2, `_check_endpoint_uniqueness`: two outcomes, one for names, one
for `(method, path)` pairs, each reporting the sorted duplicates. -/
def check_endpoint_uniqueness (doc : Jobj) : List Outcome :=
  let st := (endpoints_of doc).foldl ep_uniq_step ⟨[], [], [], []⟩
  [⟨"impl.endpoint_name.unique", st.dup_names.isEmpty,
    if st.dup_names.isEmpty then "endpoint names are unique"
    else "duplicate endpoint names: " ++ pyReprStrList (isort strLeB st.dup_names)⟩,
   ⟨"impl.method_path.unique", st.dup_method_paths.isEmpty,
    if st.dup_method_paths.isEmpty then "(method,path) pairs are unique"
    else "duplicate (method,path) pairs: " ++ pyReprPairList (isort pairLeB st.dup_method_paths)⟩]

/-- Membership of a param key in the `seen` set of rule 3 (both components
already known hashable). -/
def keyMem (seen : List (JVal × JVal)) (key : JVal × JVal) : Bool :=
  seen.any (fun k => scalarEq k.1 key.1 && scalarEq k.2 key.2)

/-- The Python `repr` of a param `(name, location)` key tuple. -/
def reprKey (key : JVal × JVal) : String :=
  "(" ++ pyRepr key.1 ++ ", " ++ pyRepr key.2 ++ ")"

/-- The `violations` list of `_check_params_uniqueness`. Hashing the key of
an object param whose `name` or `location` is a list or dict raises
`TypeError` in the `key in seen` membership test. -/
def params_uniqueness_violations (doc : Jobj) : Except Unit (List String) :=
  (endpoints_of doc).foldlM
    (fun vs ep =>
      match ep with
      | .obj kvs =>
          let ep_name := pyGetD kvs "name" (JVal.str "<unknown>")
          match pyGetD kvs "params" (JVal.arr []) with
          | .arr ps => do
              let st ← ps.foldlM
                (fun (st : List (JVal × JVal) × List String) p =>
                  match p with
                  | .obj pkvs =>
                      let key := (pyGet pkvs "name", pyGet pkvs "location")
                      if hashableV key.1 && hashableV key.2 then
                        .ok (key :: st.1,
                             if keyMem st.1 key
                             then st.2 ++ [pyStr ep_name ++ ":" ++ reprKey key]
                             else st.2)
                      else .error ()
                  | _ => .ok st)
                ([], vs)
              .ok st.2
          | _ => .ok vs
      | _ => .ok vs)
    []

/-- Rule 3, `_check_params_uniqueness`. -/
def check_params_uniqueness (doc : Jobj) : Except Unit (List Outcome) := do
  let violations ← params_uniqueness_violations doc
  .ok [⟨"impl.params.unique_by_name_location", violations.isEmpty,
        if violations.isEmpty then "params are unique by (name,location)"
        else "duplicate params: " ++ pyReprStrList violations⟩]

/-- Whether a `method` value passes rule 4: a string in `METHODS`. -/
def methodAllowed : JVal → Bool
  | .str s => METHODS.contains s
  | _ => false

/-- The `bad` list of `_check_method_values`. -/
def method_values_bad (doc : Jobj) : List String :=
  (endpoints_of doc).foldl
    (fun bad ep =>
      match ep with
      | .obj kvs =>
          let method := pyGet kvs "method"
          let name := pyGetD kvs "name" (JVal.str "<unknown>")
          if methodAllowed method then bad
          else bad ++ [pyStr name ++ ":" ++ pyStr method]
      | _ => bad)
    []

/-- Rule 4, `_check_method_values`: emits only when the checklist defines
`impl.endpoint.method.allowed`. -/
def check_method_values (doc : Jobj) (cd : CDefs) : List Outcome :=
  let bad := method_values_bad doc
  if (alookup cd "impl.endpoint.method.allowed").isSome then
    [⟨"impl.endpoint.method.allowed", bad.isEmpty,
      if bad.isEmpty then "all methods are allowed"
      else "invalid methods: " ++ pyReprStrList bad⟩]
  else []

/-- Whether a `location` value is in `PARAM_LOCATIONS` (only evaluated on
hashable values; a string is compared, anything else is not a member). -/
def locationAllowed : JVal → Bool
  | .str s => PARAM_LOCATIONS.contains s
  | _ => false

/-- The `bad` list of `_check_param_locations`. The membership test
`location not in PARAM_LOCATIONS` hashes `location`, so a list/dict
location raises `TypeError` — before the checklist gate is consulted. -/
def param_locations_bad (doc : Jobj) : Except Unit (List String) :=
  (endpoints_of doc).foldlM
    (fun bad ep =>
      match ep with
      | .obj kvs =>
          let ep_name := pyGetD kvs "name" (JVal.str "<unknown>")
          match pyGetD kvs "params" (JVal.arr []) with
          | .arr ps =>
              ps.foldlM
                (fun bad2 p =>
                  match p with
                  | .obj pkvs =>
                      let location := pyGet pkvs "location"
                      let pname := pyGetD pkvs "name" (JVal.str "<unknown>")
                      if hashableV location then
                        .ok (if locationAllowed location then bad2
                             else bad2 ++ [pyStr ep_name ++ ":" ++ pyStr pname ++ ":" ++ pyStr location])
                      else .error ()
                  | _ => .ok bad2)
                bad
          | _ => .ok bad
      | _ => .ok bad)
    []

/-- Rule 5, `_check_param_locations`: emits only when the checklist defines
`impl.params.location.allowed`. -/
def check_param_locations (doc : Jobj) (cd : CDefs) : Except Unit (List Outcome) := do
  let bad ← param_locations_bad doc
  .ok (if (alookup cd "impl.params.location.allowed").isSome then
        [⟨"impl.params.location.allowed", bad.isEmpty,
          if bad.isEmpty then "all parameter locations are valid"
          else "invalid parameter locations: " ++ pyReprStrList bad⟩]
      else [])

/-- Whether an `auth.type` value is a string in `AUTH_TYPES`. -/
def authTypeAllowed : JVal → Bool
  | .str s => AUTH_TYPES.contains s
  | _ => false

/-- Whether an `auth.type` value is `"bearer"` or `"oauth2"`. -/
def isBearerOauth : JVal → Bool
  | .str s => s == "bearer" || s == "oauth2"
  | _ => false

/-- The bearer/oauth2 field check of rule 6: non-empty `instructions` list
and dict-typed `acquire` and `apply`. -/
def bearer_fields_ok (kvs : Jobj) : Bool :=
  (match pyGet kvs "instructions" with
   | .arr xs => !xs.isEmpty
   | _ => false)
    && isObjV (pyGet kvs "acquire")
    && isObjV (pyGet kvs "apply")

/-- Rule 6, `_check_auth_object`: silent when `doc.get("auth")` is `None`
(absent key or stored `null`); otherwise validates shape, type, and the
bearer/oauth2 structured fields. -/
def check_auth_object (doc : Jobj) : List Outcome :=
  match pyGet doc "auth" with
  | .null => []
  | .obj kvs =>
      let auth_type := pyGet kvs "type"
      if !authTypeAllowed auth_type then
        [⟨"impl.auth_flow.structured_fields", false,
          "auth.type invalid: " ++ pyStr auth_type⟩]
      else if isBearerOauth auth_type then
        let ok := bearer_fields_ok kvs
        [⟨"impl.auth_flow.structured_fields", ok,
          if ok then "bearer/oauth2 auth includes instructions+acquire+apply"
          else "bearer/oauth2 auth should include instructions, acquire, and apply"⟩]
      else []
  | _ => [⟨"impl.auth_flow.structured_fields", false, "auth exists but is not an object"⟩]

/-- Rule 7, `_check_auth_docs_requirement`: always passes; emits only when
the checklist defines `impl.auth_docs.required_for_protected`. -/
def check_auth_docs_requirement (doc : Jobj) (cd : CDefs) : List Outcome :=
  let auth := pyGet doc "auth"
  let auth_type := match auth with | .obj kvs => pyGet kvs "type" | _ => JVal.null
  let protected_expected := match auth_type with | .str s => !(s == "none") | _ => false
  if (alookup cd "impl.auth_docs.required_for_protected").isSome then
    if protected_expected then
      [⟨"impl.auth_docs.required_for_protected", true,
        "requires /ai-docs/auth for protected APIs (runtime endpoint verification out of scope for static document validation)"⟩]
    else
      [⟨"impl.auth_docs.required_for_protected", true,
        "auth.type is none or missing; /ai-docs/auth requirement not triggered"⟩]
  else []

/-- The `missing` name list shared by rules 8 and 9: names (or `<unknown>`)
of dict endpoints lacking the given key. -/
def endpoints_missing_key (doc : Jobj) (key : String) : List JVal :=
  (endpoints_of doc).foldl
    (fun m ep =>
      match ep with
      | .obj kvs =>
          if hasKey kvs key then m else m ++ [pyGetD kvs "name" (JVal.str "<unknown>")]
      | _ => m)
    []

/-- Rule 8, `_check_auth_required_presence`. -/
def check_auth_required_presence (doc : Jobj) : List Outcome :=
  let missing := endpoints_missing_key doc "auth_required"
  [⟨"impl.endpoint.auth_required_supported", missing.isEmpty,
    if missing.isEmpty then "all endpoints include auth_required"
    else "endpoints missing auth_required: " ++ "[" ++ pyReprSeq missing ++ "]"⟩]

/-- Rule 9, `_check_response_content_type_support`. -/
def check_response_content_type_support (doc : Jobj) : List Outcome :=
  let missing := endpoints_missing_key doc "response_content_type"
  [⟨"impl.endpoint.response_content_type_supported", missing.isEmpty,
    if missing.isEmpty then "all endpoints include response_content_type"
    else "endpoints missing response_content_type: " ++ "[" ++ pyReprSeq missing ++ "]"⟩]

/-- Whether an object param declares at least one constraint field. -/
def hasConstraint (pkvs : Jobj) : Bool :=
  CONSTRAINT_FIELDS.any (fun f => hasKey pkvs f)

/-- The `(params_total, constrained)` counters of
`_check_param_constraints_published`. -/
def param_stats (doc : Jobj) : Nat × Nat :=
  (endpoints_of doc).foldl
    (fun acc ep =>
      match ep with
      | .obj kvs =>
          match pyGetD kvs "params" (JVal.arr []) with
          | .arr ps =>
              ps.foldl
                (fun acc2 p =>
                  match p with
                  | .obj pkvs => (acc2.1 + 1, acc2.2 + (if hasConstraint pkvs then 1 else 0))
                  | _ => acc2)
                acc
          | _ => acc
      | _ => acc)
    (0, 0)

/-- Rule 10, `_check_param_constraints_published`. -/
def check_param_constraints_published (doc : Jobj) : List Outcome :=
  let s := param_stats doc
  if s.1 = 0 then
    [⟨"impl.params.constraints_published", true,
      "no params defined; constraint publication not applicable"⟩]
  else
    [⟨"impl.params.constraints_published", decide (0 < s.2),
      toString s.2 ++ "/" ++ toString s.1 ++ " params publish machine-readable constraints"⟩]

/-- Rule 11, `_check_agent_rules_consistent_shape`. -/
def check_agent_rules_consistent_shape (doc : Jobj) : List Outcome :=
  match pyGet doc "agent_rules" with
  | .null => [⟨"impl.agent_rules.consistent", true, "agent_rules not present (optional)"⟩]
  | rules =>
      let ok := match rules with
        | .arr xs => xs.all (fun x => match x with | .str s => !(pyStrip s == "") | _ => false)
        | _ => false
      [⟨"impl.agent_rules.consistent", ok,
        if ok then "agent_rules is a non-empty string list"
        else "agent_rules should be an array of non-empty strings"⟩]

/-- `Validator.run`: the eleven rules in their fixed order; an exception in
rule 3 or rule 5 aborts the run. -/
def run_outcomes (doc : Jobj) (cd : CDefs) : Except Unit (List Outcome) := do
  let t3 ← check_params_uniqueness doc
  let t5 ← check_param_locations doc cd
  .ok (check_top_level_required_fields doc
    ++ check_endpoint_uniqueness doc
    ++ t3
    ++ check_method_values doc cd
    ++ t5
    ++ check_auth_object doc
    ++ check_auth_docs_requirement doc cd
    ++ check_auth_required_presence doc
    ++ check_response_content_type_support doc
    ++ check_param_constraints_published doc
    ++ check_agent_rules_consistent_shape doc)

/-- Construct the validator and run it: `Validator.__init__` indexes the
checklist (which can raise), then `Validator.run` collects results through
`_emit`. -/
def run_validator (doc checklist : Jobj) : Except Unit (List CheckResult) := do
  let cd ← index_checks checklist
  let ts ← run_outcomes doc cd
  .ok (ts.map (emit_result cd))

/-- Whether a result's stored level equals the given severity string, the
`result.level == "MUST"` comparison of `print_report` and `main`. -/
def isLevel (r : CheckResult) (lvl : String) : Bool :=
  match r.level with
  | .str s => s == lvl
  | _ => false

/-- The per-severity failure count accumulated by `print_report` and
recomputed by `main`. -/
def count_level_failures (results : List CheckResult) (lvl : String) : Nat :=
  results.countP (fun r => !r.passed && isLevel r lvl)

/-- The final compliance line of `print_report`. -/
def compliance_line (results : List CheckResult) : String :=
  if count_level_failures results "MUST" = 0 then
    "Result: COMPLIANT (all MUST checks passed)"
  else
    "Result: NOT COMPLIANT (one or more MUST checks failed)"

/-- The two status lines `print_report` prints per result. -/
def result_lines (r : CheckResult) : List String :=
  ["[" ++ (if r.passed then "PASS" else "FAIL") ++ "] " ++ r.check_id
     ++ " (" ++ pyStr r.level ++ ")",
   "       " ++ r.message]

/-- `print_report` as the list of printed lines, in order. -/
def print_report (results : List CheckResult) : List String :=
  (["AIIF Conformance Report", String.mk (List.replicate 72 '=')]
    ++ (results.map result_lines).flatten
    ++ [String.mk (List.replicate 72 '-'),
        "Total checks: " ++ toString results.length,
        "MUST failures: " ++ toString (count_level_failures results "MUST"),
        "SHOULD failures: " ++ toString (count_level_failures results "SHOULD")])
    ++ [compliance_line results]

/-- The exit status `main` derives from the failure counts and the
`--strict-should` flag (lines 374-380 of the script). -/
def verdict (must_fail should_fail : Nat) (strict : Bool) : Nat :=
  if must_fail > 0 then 1
  else if strict && should_fail > 0 then 1
  else 0

/-- The severity-resolution function as claim C3 words it: the declared
level when the id is defined with a recognized level, and `"INFO"` when the
id is absent, the entry has no level, or the level string is unrecognized. -/
def claimed_level_of (cd : CDefs) (id : String) : JVal :=
  match alookup cd id with
  | some (.obj kvs) =>
      match pyGetD kvs "level" (JVal.str "INFO") with
      | .str s => if s = "MUST" ∨ s = "SHOULD" ∨ s = "INFO" then JVal.str s else JVal.str "INFO"
      | _ => JVal.str "INFO"
  | _ => JVal.str "INFO"

/-- The failure condition of rule 1 as claim C7 words it: a required key is
absent, or `aiif_version` is not a non-empty string, or `endpoints` is not a
sequence, or `info` is not an object. -/
def claimed_top_level_fails (doc : Jobj) : Bool :=
  !hasKey doc "aiif_version" || !hasKey doc "info" || !hasKey doc "endpoints"
    || !(match pyGet doc "aiif_version" with | .str s => !(s == "") | _ => false)
    || !isArrV (pyGet doc "endpoints")
    || !isObjV (pyGet doc "info")

/-- A result whose level is the string `"MUST"` cannot also count as
`"INFO"`. -/
theorem isLevel_must_not_info (r : CheckResult) :
    isLevel r "MUST" = true → isLevel r "INFO" = false := by
  unfold isLevel
  cases r.level <;> simp
  intro h
  subst h
  decide

/-- A result whose level is the string `"SHOULD"` cannot also count as
`"INFO"`. -/
theorem isLevel_should_not_info (r : CheckResult) :
    isLevel r "SHOULD" = true → isLevel r "INFO" = false := by
  unfold isLevel
  cases r.level <;> simp
  intro h
  subst h
  decide

/-- C1: the exit status is a pure function of the two failure counts and the
strict flag: `verdict` returns only 0 or 1; it returns 1 exactly when
MUST failures are positive or, under strict, SHOULD failures are positive,
and 0 otherwise; in particular `verdict 0 2 false = 0`,
`verdict 0 2 true = 1`, and `verdict 1 0 false = 1`. -/
theorem verdict_pure_function (m s : Nat) (strict : Bool) :
    (verdict m s strict = 1 ∨ verdict m s strict = 0) ∧
    (verdict m s strict = 1 ↔ (0 < m ∨ (strict = true ∧ 0 < s))) ∧
    (verdict m s strict = 0 ↔ (m = 0 ∧ (strict = false ∨ s = 0))) ∧
    verdict 0 2 false = 0 ∧ verdict 0 2 true = 1 ∧ verdict 1 0 false = 1 := by
  cases strict <;> cases m <;> cases s <;> simp [verdict]

/-- C4: contrary to the never-raises contract, the validator raises on
malformed fragments. An object param whose `name` is a list makes rule 3
hash an unhashable key (`TypeError`), and a non-dict checklist entry makes
`_index_checks` call `.get` on it (`AttributeError`); both abort the run. -/
theorem run_validator_raises_on_malformed :
    run_validator
        [("endpoints", JVal.arr [JVal.obj [("params",
            JVal.arr [JVal.obj [("name", JVal.arr []), ("location", JVal.str "query")]])]])]
        []
      = .error ()
    ∧ run_validator [] [("checks", JVal.arr [JVal.num 42])] = .error () :=
  ⟨rfl, rfl⟩

/-- C2: `print_report` ends with the compliance line; that line reads
COMPLIANT iff the number of failing results whose level is MUST is zero and
NOT COMPLIANT otherwise; results whose level is not MUST never change the
line; and failing INFO results contribute to neither printed failure
count. -/
theorem print_report_compliance (results : List CheckResult) :
    (print_report results).getLast? = some (compliance_line results) ∧
    (compliance_line results = "Result: COMPLIANT (all MUST checks passed)" ↔
      count_level_failures results "MUST" = 0) ∧
    (compliance_line results = "Result: NOT COMPLIANT (one or more MUST checks failed)" ↔
      count_level_failures results "MUST" ≠ 0) ∧
    compliance_line results = compliance_line (results.filter (fun r => isLevel r "MUST")) ∧
    count_level_failures results "MUST"
      = count_level_failures (results.filter (fun r => !isLevel r "INFO")) "MUST" ∧
    count_level_failures results "SHOULD"
      = count_level_failures (results.filter (fun r => !isLevel r "INFO")) "SHOULD" := by
  have hne : "Result: COMPLIANT (all MUST checks passed)"
      ≠ "Result: NOT COMPLIANT (one or more MUST checks failed)" := by decide
  have hmustfilter : count_level_failures (results.filter (fun r => isLevel r "MUST")) "MUST"
      = count_level_failures results "MUST" := by
    unfold count_level_failures
    rw [List.countP_filter]
    apply List.countP_congr
    intro r _
    cases h : isLevel r "MUST" <;> cases hp : r.passed <;> simp [h, hp]
  have hinfo : ∀ lvl, lvl = "MUST" ∨ lvl = "SHOULD" →
      count_level_failures (results.filter (fun r => !isLevel r "INFO")) lvl
        = count_level_failures results lvl := by
    intro lvl hlvl
    unfold count_level_failures
    rw [List.countP_filter]
    apply List.countP_congr
    intro r _
    cases h : isLevel r lvl <;> cases hp : r.passed <;> simp [h, hp]
    rcases hlvl with h' | h' <;> subst h'
    · exact isLevel_must_not_info r h
    · exact isLevel_should_not_info r h
  refine ⟨?_, ?_, ?_, ?_, ?_, ?_⟩
  · unfold print_report
    exact List.getLast?_concat _
  · unfold compliance_line
    split
    · simp [*]
    · constructor
      · intro h
        exact absurd h.symm hne
      · intro h
        exact absurd h (by assumption)
  · unfold compliance_line
    split
    · constructor
      · intro h
        exact absurd h hne
      · intro h
        exact absurd (by assumption) h
    · simp [*]
  · unfold compliance_line
    rw [hmustfilter]
  · exact (hinfo "MUST" (Or.inl rfl)).symm
  · exact (hinfo "SHOULD" (Or.inr rfl)).symm

/-- C3 counterexample: a checklist entry whose level is the unrecognized
string `"CRITICAL"` is emitted verbatim, while the claim's resolution
function defaults it to `"INFO"`. -/
theorem emitted_level_keeps_unrecognized :
    ∃ cd rs, index_checks [("checks", JVal.arr [JVal.obj
        [("id", JVal.str "impl.top_level.required_fields"),
         ("level", JVal.str "CRITICAL")]])] = .ok cd ∧
      run_validator [] [("checks", JVal.arr [JVal.obj
        [("id", JVal.str "impl.top_level.required_fields"),
         ("level", JVal.str "CRITICAL")]])] = .ok rs ∧
      ∃ r, rs.head? = some r ∧
        r.check_id = "impl.top_level.required_fields" ∧
        r.level = JVal.str "CRITICAL" ∧
        claimed_level_of cd r.check_id = JVal.str "INFO" ∧
        r.level ≠ claimed_level_of cd r.check_id := by
  refine ⟨_, _, rfl, rfl, _, rfl, rfl, rfl, rfl, ?_⟩
  intro h
  have h2 := JVal.str.inj h
  exact absurd h2 (by decide)

/-- C5 counterexample: with `auth` present but set to JSON `null` — a value
that is not an object — the auth rule emits nothing instead of the single
failing result the claim requires. -/
theorem auth_null_counterexample :
    hasKey [("auth", JVal.null)] "auth" = true ∧
    isObjV (pyGet [("auth", JVal.null)] "auth") = false ∧
    check_auth_object [("auth", JVal.null)] = [] :=
  ⟨rfl, rfl, rfl⟩

/-- C7 counterexample: `aiif_version` equal to `" "` is a non-empty string,
so the claim's failure condition is false, yet rule 1 fails (the code
requires the string to be non-empty after stripping whitespace). -/
theorem top_level_whitespace_counterexample :
    claimed_top_level_fails
        [("aiif_version", JVal.str " "), ("info", JVal.obj []), ("endpoints", JVal.arr [])]
      = false ∧
    check_top_level_required_fields
        [("aiif_version", JVal.str " "), ("info", JVal.obj []), ("endpoints", JVal.arr [])]
      = [⟨"impl.top_level.required_fields", false,
          "missing/invalid top-level fields: [\x27aiif_version (must be non-empty string)\x27]"⟩] :=
  ⟨rfl, rfl⟩

/-- C3 (amended): every emitted result's level is exactly the `_emit` lookup
`check_defs.get(id, {}).get("level", "INFO")`: the stored `level` value
verbatim when the entry has one (recognized or not), and `"INFO"` only when
the id is absent from the indexed checklist or its entry has no `level`
key; the rules themselves never supply a level. -/
theorem emitted_level_resolution (doc cl : Jobj) (cd : CDefs) (rs : List CheckResult)
    (h1 : index_checks cl = .ok cd) (h2 : run_validator doc cl = .ok rs) :
    (∀ r ∈ rs, r.level = level_of cd r.check_id) ∧
    (∀ id, alookup cd id = none → level_of cd id = JVal.str "INFO") ∧
    (∀ id kvs, alookup cd id = some (JVal.obj kvs) → hasKey kvs "level" = false →
      level_of cd id = JVal.str "INFO") ∧
    (∀ id kvs v, alookup cd id = some (JVal.obj kvs) → alookup kvs "level" = some v →
      level_of cd id = v) := by
  refine ⟨?_, ?_, ?_, ?_⟩
  · unfold run_validator at h2
    rw [h1] at h2
    have h2' : (run_outcomes doc cd >>= fun ts => Except.ok (List.map (emit_result cd) ts))
        = Except.ok rs := h2
    cases h3 : run_outcomes doc cd with
    | error e =>
        rw [h3] at h2'
        exact Except.noConfusion h2'
    | ok ts =>
        rw [h3] at h2'
        have h4 : ts.map (emit_result cd) = rs := Except.ok.inj h2'
        subst h4
        intro r hr
        obtain ⟨t, ht, rfl⟩ := List.mem_map.mp hr
        rfl
  · intro id h
    simp [level_of, h]
  · intro id kvs h hl
    have : alookup kvs "level" = none := by
      unfold hasKey at hl
      cases hx : alookup kvs "level" with
      | none => rfl
      | some v => rw [hx] at hl; simp at hl
    simp [level_of, h, pyGetD, this]
  · intro id kvs v h hl
    simp [level_of, h, pyGetD, hl]

/-- The first result of running the validator on an empty document against
an empty checklist. -/
def c3_first_result : CheckResult :=
  ⟨"impl.top_level.required_fields", JVal.str "INFO", false,
   "missing/invalid top-level fields: [\x27aiif_version\x27, \x27info\x27, \x27endpoints\x27, \x27aiif_version (must be non-empty string)\x27]"⟩

/-- The remaining results of that run, in emission order. -/
def c3_rest_results : List CheckResult :=
  [⟨"impl.endpoint_name.unique", JVal.str "INFO", true, "endpoint names are unique"⟩,
   ⟨"impl.method_path.unique", JVal.str "INFO", true, "(method,path) pairs are unique"⟩,
   ⟨"impl.params.unique_by_name_location", JVal.str "INFO", true, "params are unique by (name,location)"⟩,
   ⟨"impl.endpoint.auth_required_supported", JVal.str "INFO", true, "all endpoints include auth_required"⟩,
   ⟨"impl.endpoint.response_content_type_supported", JVal.str "INFO", true, "all endpoints include response_content_type"⟩,
   ⟨"impl.params.constraints_published", JVal.str "INFO", true, "no params defined; constraint publication not applicable"⟩,
   ⟨"impl.agent_rules.consistent", JVal.str "INFO", true, "agent_rules not present (optional)"⟩]

/-- Witness for the level-resolution theorem at a concrete run. -/
theorem emitted_level_resolution_witness :
    c3_first_result.level = level_of [] c3_first_result.check_id :=
  (emitted_level_resolution [] [] [] (c3_first_result :: c3_rest_results) rfl rfl).1
    c3_first_result (List.mem_cons_self _ _)

/-- A `"bearer"`/`"oauth2"` type is in particular an allowed auth type. -/
theorem bearer_implies_allowed (v : JVal) :
    isBearerOauth v = true → authTypeAllowed v = true := by
  cases v <;> simp [isBearerOauth, authTypeAllowed]
  intro h
  rcases h with rfl | rfl <;> decide

/-- C5 (amended): the auth rule emits nothing when `doc.get("auth")` is
`None` — the key absent or its value JSON `null`; exactly one failing
result when the value is neither `null` nor an object; exactly one failing
result naming the offending value when the object's `type` is not an
allowed auth-type string; and for `"bearer"`/`"oauth2"` exactly one result
that passes iff `instructions` is a non-empty sequence and `acquire` and
`apply` are objects — so `auth: ("type": "bearer")` alone fails and adding
the three fields flips it to passing. -/
theorem auth_object_rule_behavior (doc : Jobj) :
    (pyGet doc "auth" = JVal.null → check_auth_object doc = []) ∧
    (∀ v, pyGet doc "auth" = v → v ≠ JVal.null → (∀ kvs, v ≠ JVal.obj kvs) →
      check_auth_object doc
        = [⟨"impl.auth_flow.structured_fields", false, "auth exists but is not an object"⟩]) ∧
    (∀ kvs, pyGet doc "auth" = JVal.obj kvs → authTypeAllowed (pyGet kvs "type") = false →
      check_auth_object doc
        = [⟨"impl.auth_flow.structured_fields", false,
            "auth.type invalid: " ++ pyStr (pyGet kvs "type")⟩]) ∧
    (∀ kvs, pyGet doc "auth" = JVal.obj kvs → isBearerOauth (pyGet kvs "type") = true →
      check_auth_object doc
        = [⟨"impl.auth_flow.structured_fields", bearer_fields_ok kvs,
            if bearer_fields_ok kvs then "bearer/oauth2 auth includes instructions+acquire+apply"
            else "bearer/oauth2 auth should include instructions, acquire, and apply"⟩]
      ∧ (bearer_fields_ok kvs = true ↔
          ((∃ xs, pyGet kvs "instructions" = JVal.arr xs ∧ xs ≠ []) ∧
           isObjV (pyGet kvs "acquire") = true ∧ isObjV (pyGet kvs "apply") = true))) ∧
    check_auth_object [("auth", JVal.obj [("type", JVal.str "bearer")])]
      = [⟨"impl.auth_flow.structured_fields", false,
          "bearer/oauth2 auth should include instructions, acquire, and apply"⟩] ∧
    check_auth_object [("auth", JVal.obj
        [("type", JVal.str "bearer"), ("instructions", JVal.arr [JVal.str "step"]),
         ("acquire", JVal.obj []), ("apply", JVal.obj [])])]
      = [⟨"impl.auth_flow.structured_fields", true,
          "bearer/oauth2 auth includes instructions+acquire+apply"⟩] := by
  refine ⟨?_, ?_, ?_, ?_, rfl, rfl⟩
  · intro h
    unfold check_auth_object
    rw [h]
  · intro v hv hnull hobj
    unfold check_auth_object
    rw [hv]
    cases v with
    | null => exact absurd rfl hnull
    | obj kvs => exact absurd rfl (hobj kvs)
    | bool b => rfl
    | num n => rfl
    | str s => rfl
    | arr xs => rfl
  · intro kvs h hna
    unfold check_auth_object
    rw [h]
    simp [hna]
  · intro kvs h hb
    constructor
    · unfold check_auth_object
      rw [h]
      simp [bearer_implies_allowed _ hb, hb]
    · unfold bearer_fields_ok
      cases hi : pyGet kvs "instructions" <;>
        simp [hi, List.isEmpty_iff, and_assoc]

/-- Witness for the auth rule theorem: a numeric `auth` value is present,
non-null, and not an object, and yields the single generic failure. -/
theorem auth_object_rule_behavior_witness :
    check_auth_object [("auth", JVal.num 3)]
      = [⟨"impl.auth_flow.structured_fields", false, "auth exists but is not an object"⟩] :=
  (auth_object_rule_behavior [("auth", JVal.num 3)]).2.1 (JVal.num 3) rfl
    (fun h => JVal.noConfusion h) (fun kvs h => JVal.noConfusion h)

/-- The `missing` list of rule 1 unfolded per key. -/
theorem top_level_missing_eq (doc : Jobj) :
    top_level_missing doc
      = (if hasKey doc "aiif_version" then [] else ["aiif_version"])
        ++ (if hasKey doc "info" then [] else ["info"])
        ++ (if hasKey doc "endpoints" then [] else ["endpoints"]) := by
  unfold top_level_missing required_top_level
  cases h1 : hasKey doc "aiif_version" <;>
    cases h2 : hasKey doc "info" <;>
      cases h3 : hasKey doc "endpoints" <;>
        simp [List.filter_cons, h1, h2, h3]

/-- C7 (amended): rule 1 emits exactly one result; it fails iff a required
key is absent, `aiif_version` is not a string with non-whitespace content
(non-empty after stripping), `endpoints` is not a sequence, or `info` is
not an object; on failure the message renders the `details` list, which
contains every missing key and, when the `aiif_version` condition fails,
the explicit complaint — not just the first defect. -/
theorem top_level_rule_behavior (doc : Jobj) :
    check_top_level_required_fields doc
      = [⟨"impl.top_level.required_fields", top_level_ok doc, top_level_msg doc⟩] ∧
    (top_level_ok doc = false ↔
      (hasKey doc "aiif_version" = false ∨ hasKey doc "info" = false ∨
       hasKey doc "endpoints" = false ∨ aiif_version_ok doc = false ∨
       isArrV (pyGet doc "endpoints") = false ∨ isObjV (pyGet doc "info") = false)) ∧
    (aiif_version_ok doc = true ↔
      ∃ s, pyGet doc "aiif_version" = JVal.str s ∧ pyStrip s ≠ "") ∧
    (top_level_ok doc = false →
      top_level_msg doc
        = "missing/invalid top-level fields: " ++ pyReprStrList (top_level_details doc)) ∧
    (∀ k, k ∈ required_top_level → hasKey doc k = false → k ∈ top_level_details doc) ∧
    (aiif_version_ok doc = false →
      "aiif_version (must be non-empty string)" ∈ top_level_details doc) := by
  refine ⟨rfl, ?_, ?_, ?_, ?_, ?_⟩
  · unfold top_level_ok
    rw [top_level_missing_eq]
    cases h1 : hasKey doc "aiif_version" <;>
      cases h2 : hasKey doc "info" <;>
        cases h3 : hasKey doc "endpoints" <;>
          cases h4 : aiif_version_ok doc <;>
            cases h5 : isArrV (pyGet doc "endpoints") <;>
              cases h6 : isObjV (pyGet doc "info") <;>
                simp
  · unfold aiif_version_ok
    cases hv : pyGet doc "aiif_version" <;> simp [hv]
  · intro h
    simp [top_level_msg, h]
  · intro k hk hfalse
    unfold top_level_details
    rw [top_level_missing_eq]
    simp only [required_top_level, List.mem_cons, List.not_mem_nil, or_false] at hk
    rcases hk with rfl | rfl | rfl
    · simp [hfalse]
    · simp [hfalse]
    · simp [hfalse]
  · intro h
    simp [top_level_details, h]

/-- Witness for the rule 1 theorem at the empty document: the failure
message renders the details list, and the missing key `info` is listed. -/
theorem top_level_rule_behavior_witness :
    top_level_msg []
      = "missing/invalid top-level fields: " ++ pyReprStrList (top_level_details []) ∧
    "info" ∈ top_level_details [] :=
  ⟨(top_level_rule_behavior []).2.2.2.1 rfl,
   (top_level_rule_behavior []).2.2.2.2.1 "info" (by decide) rfl⟩

/-- C8: rule 10 emits exactly one result: a trivially passing
"not applicable" result when the document has zero object params, and
otherwise a result that passes iff at least one param declares a constraint
field, whose message reports "constrained/total" regardless of outcome. -/
theorem param_constraints_behavior (doc : Jobj) :
    ((param_stats doc).1 = 0 →
      check_param_constraints_published doc
        = [⟨"impl.params.constraints_published", true,
            "no params defined; constraint publication not applicable"⟩]) ∧
    ((param_stats doc).1 ≠ 0 →
      check_param_constraints_published doc
        = [⟨"impl.params.constraints_published", decide (0 < (param_stats doc).2),
            toString (param_stats doc).2 ++ "/" ++ toString (param_stats doc).1
              ++ " params publish machine-readable constraints"⟩]) ∧
    (∀ t ∈ check_param_constraints_published doc,
      (t.passed = true ↔ ((param_stats doc).1 = 0 ∨ 0 < (param_stats doc).2))) := by
  refine ⟨?_, ?_, ?_⟩
  · intro h
    simp [check_param_constraints_published, h]
  · intro h
    simp [check_param_constraints_published, h]
  · intro t ht
    by_cases h : (param_stats doc).1 = 0
    · simp [check_param_constraints_published, h] at ht
      subst ht
      simp [h]
    · simp [check_param_constraints_published, h] at ht
      subst ht
      simp [h]

/-- A document with ten object params of which exactly one declares a
constraint field. -/
def c8_doc : Jobj :=
  [("endpoints", JVal.arr [JVal.obj [("params",
      JVal.arr (JVal.obj [("minimum", JVal.num 1)] :: List.replicate 9 (JVal.obj [])))]])]

/-- Witness for the rule 10 theorem: zero params pass as not applicable,
and one constrained param among ten passes reporting "1/10". -/
theorem param_constraints_behavior_witness :
    check_param_constraints_published []
      = [⟨"impl.params.constraints_published", true,
          "no params defined; constraint publication not applicable"⟩] ∧
    check_param_constraints_published c8_doc
      = [⟨"impl.params.constraints_published", true,
          "1/10 params publish machine-readable constraints"⟩] :=
  ⟨(param_constraints_behavior []).1 rfl,
   (param_constraints_behavior c8_doc).2.1 (by decide)⟩

/-- Looking up the key just assigned returns the assigned value. -/
theorem alookup_setKey_self (m : Jobj) (k : String) (v : JVal) :
    alookup (setKey m k v) k = some v := by
  induction m with
  | nil => simp [setKey, alookup]
  | cons hd tl ih =>
      obtain ⟨k', v'⟩ := hd
      unfold setKey
      by_cases h : k' = k
      · simp [h, alookup]
      · simp [h, alookup, ih]

/-- Assigning one key leaves lookups of other keys unchanged. -/
theorem alookup_setKey_ne (m : Jobj) (k : String) (v : JVal) (k' : String)
    (h : k' ≠ k) :
    alookup (setKey m k v) k' = alookup m k' := by
  induction m with
  | nil =>
      have hne : ¬k = k' := fun hx => h hx.symm
      simp [setKey, alookup, hne]
  | cons hd tl ih =>
      obtain ⟨k0, v0⟩ := hd
      unfold setKey
      by_cases h0 : k0 = k
      · subst h0
        have hne : ¬k0 = k' := fun hx => h hx.symm
        simp [alookup, hne]
      · simp [h0, alookup, ih]

/-- Whether a checklist entry is a dict whose `id` value is the given
string — the membership test `_index_checks` effectively performs. -/
def matchesId (item : JVal) (id : String) : Bool :=
  match item with
  | .obj kvs => (match pyGet kvs "id" with | .str s => s == id | _ => false)
  | _ => false

/-- The last checklist entry declaring the given id, in sequence order. -/
def lastEntryFor (checks : List JVal) (id : String) : Option JVal :=
  (checks.filter (fun item => matchesId item id)).getLast?

/-- `getLast?` of a cons in terms of the tail. -/
theorem getLast?_cons_or {α : Type} (a : α) (l : List α) :
    (a :: l).getLast? = (l.getLast?).or (some a) := by
  cases l with
  | nil => rfl
  | cons b m =>
      rw [List.getLast?_cons_cons]
      cases hx : (b :: m).getLast? with
      | none => exact absurd (List.getLast?_eq_none_iff.mp hx) (by simp)
      | some x => simp [Option.or]

/-- Unfolding `lastEntryFor` over a cons. -/
theorem lastEntryFor_cons (item : JVal) (rest : List JVal) (id : String) :
    lastEntryFor (item :: rest) id
      = if matchesId item id then (lastEntryFor rest id).or (some item)
        else lastEntryFor rest id := by
  unfold lastEntryFor
  rw [List.filter_cons]
  by_cases h : matchesId item id = true
  · simp [h, getLast?_cons_or]
  · simp [h]

/-- Unfolding one step of the indexing fold when the step succeeds. -/
theorem foldlM_index_one_cons (acc acc' : CDefs) (item : JVal) (rest : List JVal)
    (h1 : index_one acc item = .ok acc') :
    List.foldlM index_one acc (item :: rest) = List.foldlM index_one acc' rest := by
  calc List.foldlM index_one acc (item :: rest)
      = index_one acc item >>= fun b => List.foldlM index_one b rest := rfl
    _ = Except.ok acc' >>= fun b => List.foldlM index_one b rest := by rw [h1]
    _ = List.foldlM index_one acc' rest := rfl

/-- Folding `index_one` over dict-only checklist entries never errors, and
the accumulated index maps each id to the last entry declaring it, falling
back to the incoming accumulator. -/
theorem foldlM_index_one_ok (checks : List JVal) :
    ∀ acc : CDefs, (∀ item ∈ checks, isObjV item = true) →
      ∃ m, List.foldlM index_one acc checks = .ok m ∧
        ∀ id, alookup m id = (lastEntryFor checks id).or (alookup acc id) := by
  induction checks with
  | nil =>
      intro acc h
      exact ⟨acc, rfl, fun id => by simp [lastEntryFor, Option.or]⟩
  | cons item rest ih =>
      intro acc h
      have hobj : isObjV item = true := h item (List.mem_cons_self _ _)
      have hrest : ∀ it ∈ rest, isObjV it = true :=
        fun it hit => h it (List.mem_cons_of_mem _ hit)
      cases item with
      | obj kvs =>
          cases hid : pyGet kvs "id" with
          | str s =>
              obtain ⟨m, hm, hl⟩ := ih (setKey acc s (JVal.obj kvs)) hrest
              have h1 : index_one acc (JVal.obj kvs) = .ok (setKey acc s (JVal.obj kvs)) := by
                simp [index_one, hid]
              refine ⟨m, (foldlM_index_one_cons _ _ _ _ h1).trans hm, ?_⟩
              · intro id
                rw [hl id, lastEntryFor_cons]
                have hmatch : matchesId (JVal.obj kvs) id = (s == id) := by
                  simp [matchesId, hid]
                by_cases hs : s = id
                · subst hs
                  rw [hmatch]
                  simp only [beq_self_eq_true, if_true]
                  cases hrl : lastEntryFor rest s with
                  | some e => simp [Option.or]
                  | none => simp [Option.or, alookup_setKey_self]
                · rw [hmatch]
                  have : (s == id) = false := by simp [hs]
                  rw [this]
                  simp only [Bool.false_eq_true, if_false]
                  rw [alookup_setKey_ne _ _ _ _ (fun hx => hs hx.symm)]
          | null =>
              obtain ⟨m, hm, hl⟩ := ih acc hrest
              have h1 : index_one acc (JVal.obj kvs) = .ok acc := by
                simp [index_one, hid]
              refine ⟨m, (foldlM_index_one_cons _ _ _ _ h1).trans hm, fun id => ?_⟩
              rw [hl id, lastEntryFor_cons]
              simp [matchesId, hid]
          | bool b =>
              obtain ⟨m, hm, hl⟩ := ih acc hrest
              have h1 : index_one acc (JVal.obj kvs) = .ok acc := by
                simp [index_one, hid]
              refine ⟨m, (foldlM_index_one_cons _ _ _ _ h1).trans hm, fun id => ?_⟩
              rw [hl id, lastEntryFor_cons]
              simp [matchesId, hid]
          | num n =>
              obtain ⟨m, hm, hl⟩ := ih acc hrest
              have h1 : index_one acc (JVal.obj kvs) = .ok acc := by
                simp [index_one, hid]
              refine ⟨m, (foldlM_index_one_cons _ _ _ _ h1).trans hm, fun id => ?_⟩
              rw [hl id, lastEntryFor_cons]
              simp [matchesId, hid]
          | arr xs =>
              obtain ⟨m, hm, hl⟩ := ih acc hrest
              have h1 : index_one acc (JVal.obj kvs) = .ok acc := by
                simp [index_one, hid]
              refine ⟨m, (foldlM_index_one_cons _ _ _ _ h1).trans hm, fun id => ?_⟩
              rw [hl id, lastEntryFor_cons]
              simp [matchesId, hid]
          | obj kvs2 =>
              obtain ⟨m, hm, hl⟩ := ih acc hrest
              have h1 : index_one acc (JVal.obj kvs) = .ok acc := by
                simp [index_one, hid]
              refine ⟨m, (foldlM_index_one_cons _ _ _ _ h1).trans hm, fun id => ?_⟩
              rw [hl id, lastEntryFor_cons]
              simp [matchesId, hid]
      | null => simp [isObjV] at hobj
      | bool b => simp [isObjV] at hobj
      | num n => simp [isObjV] at hobj
      | str s => simp [isObjV] at hobj
      | arr xs => simp [isObjV] at hobj

/-- C9: over a `checks` sequence of dict entries, indexing succeeds and maps
every id to the last entry in sequence order that declares it as a string
`id` (last write wins); entries declaring a non-string id match no lookup
and are skipped without error; and severity lookup returns the level
declared by that last entry. -/
theorem index_checks_last_write_wins (checks : List JVal)
    (h : ∀ item ∈ checks, isObjV item = true) :
    ∃ cd, index_checks [("checks", JVal.arr checks)] = .ok cd ∧
      ∀ id, alookup cd id = lastEntryFor checks id ∧
        level_of cd id = (match lastEntryFor checks id with
          | some (JVal.obj kvs) => pyGetD kvs "level" (JVal.str "INFO")
          | _ => JVal.str "INFO") := by
  obtain ⟨m, hm, hl⟩ := foldlM_index_one_ok checks [] h
  refine ⟨m, hm, fun id => ?_⟩
  have hid := hl id
  rw [show alookup ([] : Jobj) id = none from rfl] at hid
  have hid' : alookup m id = lastEntryFor checks id := by
    rw [hid]
    cases lastEntryFor checks id <;> simp [Option.or]
  refine ⟨hid', ?_⟩
  unfold level_of
  rw [hid']

/-- A checklist whose `checks` sequence declares `x` twice (MUST first,
SHOULD last) and contains one entry with a non-string id. -/
def c9_checks : List JVal :=
  [JVal.obj [("id", JVal.str "x"), ("level", JVal.str "MUST")],
   JVal.obj [("id", JVal.num 7)],
   JVal.obj [("id", JVal.str "x"), ("level", JVal.str "SHOULD")]]

/-- Witness for last-write-wins indexing: on the duplicate checklist the
theorem applies, and the last matching entry for `x` is the SHOULD one. -/
theorem index_checks_last_write_wins_witness :
    (∃ cd, index_checks [("checks", JVal.arr c9_checks)] = .ok cd ∧
      ∀ id, alookup cd id = lastEntryFor c9_checks id ∧
        level_of cd id = (match lastEntryFor c9_checks id with
          | some (JVal.obj kvs) => pyGetD kvs "level" (JVal.str "INFO")
          | _ => JVal.str "INFO")) ∧
    lastEntryFor c9_checks "x"
      = some (JVal.obj [("id", JVal.str "x"), ("level", JVal.str "SHOULD")]) :=
  ⟨index_checks_last_write_wins c9_checks (by decide), rfl⟩

/-- C10: when `endpoints` is absent or not a sequence, every per-endpoint
rule sees the empty endpoint list: both uniqueness outcomes pass, params
uniqueness passes, method and location checks pass (when emitted at all),
both presence checks pass, and the constraints rule passes as not
applicable — while rule 1 reports the defect by failing. -/
theorem endpoints_non_list_behavior (doc : Jobj) (cd : CDefs)
    (h : isArrV (pyGet doc "endpoints") = false) :
    endpoints_of doc = [] ∧
    check_endpoint_uniqueness doc
      = [⟨"impl.endpoint_name.unique", true, "endpoint names are unique"⟩,
         ⟨"impl.method_path.unique", true, "(method,path) pairs are unique"⟩] ∧
    check_params_uniqueness doc
      = .ok [⟨"impl.params.unique_by_name_location", true, "params are unique by (name,location)"⟩] ∧
    check_method_values doc cd
      = (if (alookup cd "impl.endpoint.method.allowed").isSome then
          [⟨"impl.endpoint.method.allowed", true, "all methods are allowed"⟩] else []) ∧
    check_param_locations doc cd
      = .ok (if (alookup cd "impl.params.location.allowed").isSome then
          [⟨"impl.params.location.allowed", true, "all parameter locations are valid"⟩] else []) ∧
    check_auth_required_presence doc
      = [⟨"impl.endpoint.auth_required_supported", true, "all endpoints include auth_required"⟩] ∧
    check_response_content_type_support doc
      = [⟨"impl.endpoint.response_content_type_supported", true,
          "all endpoints include response_content_type"⟩] ∧
    check_param_constraints_published doc
      = [⟨"impl.params.constraints_published", true,
          "no params defined; constraint publication not applicable"⟩] ∧
    (∀ t ∈ check_top_level_required_fields doc, t.passed = false) := by
  have he : endpoints_of doc = [] := by
    unfold endpoints_of
    cases hv : pyGet doc "endpoints" <;>
      first
        | rfl
        | (rw [hv] at h; simp [isArrV] at h)
  refine ⟨he, ?_, ?_, ?_, ?_, ?_, ?_, ?_, ?_⟩
  · unfold check_endpoint_uniqueness
    rw [he]
    rfl
  · unfold check_params_uniqueness params_uniqueness_violations
    rw [he]
    rfl
  · unfold check_method_values method_values_bad
    rw [he]
    rfl
  · unfold check_param_locations param_locations_bad
    rw [he]
    rfl
  · unfold check_auth_required_presence endpoints_missing_key
    rw [he]
    rfl
  · unfold check_response_content_type_support endpoints_missing_key
    rw [he]
    rfl
  · unfold check_param_constraints_published param_stats
    rw [he]
    rfl
  · intro t ht
    simp only [check_top_level_required_fields, List.mem_singleton] at ht
    subst ht
    show top_level_ok doc = false
    simp [top_level_ok, h]

/-- Witness for the endpoints-fallback theorem on a document whose
`endpoints` value is the number 7. -/
theorem endpoints_non_list_behavior_witness :
    check_endpoint_uniqueness [("endpoints", JVal.num 7)]
      = [⟨"impl.endpoint_name.unique", true, "endpoint names are unique"⟩,
         ⟨"impl.method_path.unique", true, "(method,path) pairs are unique"⟩] ∧
    check_param_constraints_published [("endpoints", JVal.num 7)]
      = [⟨"impl.params.constraints_published", true,
          "no params defined; constraint publication not applicable"⟩] := by
  have H := endpoints_non_list_behavior [("endpoints", JVal.num 7)] [] (by decide)
  exact ⟨H.2.1, H.2.2.2.2.2.2.2.1⟩

/-- Every outcome of the method rule carries its fixed check id. -/
theorem mem_check_method_values_cid (doc : Jobj) (cd : CDefs) (t : Outcome)
    (h : t ∈ check_method_values doc cd) : t.cid = "impl.endpoint.method.allowed" := by
  by_cases hc : (alookup cd "impl.endpoint.method.allowed").isSome = true
  · simp only [check_method_values, hc, if_true, List.mem_singleton] at h
    subst h
    rfl
  · simp [check_method_values, hc] at h

/-- Every outcome of the auth-docs rule carries its fixed check id. -/
theorem mem_check_auth_docs_cid (doc : Jobj) (cd : CDefs) (t : Outcome)
    (h : t ∈ check_auth_docs_requirement doc cd) :
    t.cid = "impl.auth_docs.required_for_protected" := by
  by_cases hc : (alookup cd "impl.auth_docs.required_for_protected").isSome = true
  · simp only [check_auth_docs_requirement, hc, if_true] at h
    split at h <;> (simp only [List.mem_singleton] at h; subst h; rfl)
  · simp [check_auth_docs_requirement, hc] at h

/-- C6: the method, location, and auth-docs rules emit exactly when the
checklist defines their id, and whether any outcome outside those three ids
is emitted does not depend on the checklist: two runs with different
checklists agree on every such outcome. -/
theorem conditional_emission (doc : Jobj) (cd cd' : CDefs) :
    (check_method_values doc cd ≠ []
      ↔ (alookup cd "impl.endpoint.method.allowed").isSome = true) ∧
    (∀ ts, check_param_locations doc cd = .ok ts →
      (ts ≠ [] ↔ (alookup cd "impl.params.location.allowed").isSome = true)) ∧
    (check_auth_docs_requirement doc cd ≠ []
      ↔ (alookup cd "impl.auth_docs.required_for_protected").isSome = true) ∧
    (∀ ts ts', run_outcomes doc cd = .ok ts → run_outcomes doc cd' = .ok ts' →
      ∀ t : Outcome, t.cid ≠ "impl.endpoint.method.allowed" →
        t.cid ≠ "impl.params.location.allowed" →
        t.cid ≠ "impl.auth_docs.required_for_protected" →
        (t ∈ ts ↔ t ∈ ts')) := by
  refine ⟨?_, ?_, ?_, ?_⟩
  · by_cases hc : (alookup cd "impl.endpoint.method.allowed").isSome = true
    · simp [check_method_values, hc]
    · simp [check_method_values, hc]
  · intro ts hok
    cases hbad : param_locations_bad doc with
    | error e =>
        have hcl : check_param_locations doc cd = .error e := by
          unfold check_param_locations
          rw [hbad]
          rfl
        rw [hcl] at hok
        exact Except.noConfusion hok
    | ok bad =>
        have hcl : check_param_locations doc cd
            = .ok (if (alookup cd "impl.params.location.allowed").isSome then
                [⟨"impl.params.location.allowed", bad.isEmpty,
                  if bad.isEmpty then "all parameter locations are valid"
                  else "invalid parameter locations: " ++ pyReprStrList bad⟩] else []) := by
          unfold check_param_locations
          rw [hbad]
          rfl
        rw [hcl] at hok
        have hts := Except.ok.inj hok
        subst hts
        by_cases hc : (alookup cd "impl.params.location.allowed").isSome = true
        · simp [hc]
        · simp [hc]
  · by_cases hc : (alookup cd "impl.auth_docs.required_for_protected").isSome = true
    · unfold check_auth_docs_requirement
      simp only [hc, if_true]
      split <;> simp [hc]
    · simp [check_auth_docs_requirement, hc]
  · intro ts ts' hts hts' t h1 h2 h3
    have hM : ∀ cdx, t ∉ check_method_values doc cdx :=
      fun cdx hm => h1 (mem_check_method_values_cid doc cdx t hm)
    have hAD : ∀ cdx, t ∉ check_auth_docs_requirement doc cdx :=
      fun cdx hm => h3 (mem_check_auth_docs_cid doc cdx t hm)
    unfold run_outcomes at hts hts'
    cases h3' : check_params_uniqueness doc with
    | error e =>
        rw [h3'] at hts
        exact Except.noConfusion hts
    | ok t3 =>
        rw [h3'] at hts hts'
        have hts2 : (check_param_locations doc cd >>= fun t5 =>
            Except.ok (check_top_level_required_fields doc ++ check_endpoint_uniqueness doc
              ++ t3 ++ check_method_values doc cd ++ t5 ++ check_auth_object doc
              ++ check_auth_docs_requirement doc cd ++ check_auth_required_presence doc
              ++ check_response_content_type_support doc ++ check_param_constraints_published doc
              ++ check_agent_rules_consistent_shape doc)) = .ok ts := hts
        have hts2' : (check_param_locations doc cd' >>= fun t5 =>
            Except.ok (check_top_level_required_fields doc ++ check_endpoint_uniqueness doc
              ++ t3 ++ check_method_values doc cd' ++ t5 ++ check_auth_object doc
              ++ check_auth_docs_requirement doc cd' ++ check_auth_required_presence doc
              ++ check_response_content_type_support doc ++ check_param_constraints_published doc
              ++ check_agent_rules_consistent_shape doc)) = .ok ts' := hts'
        cases hbad : param_locations_bad doc with
        | error e =>
            have hcl : check_param_locations doc cd = .error e := by
              unfold check_param_locations
              rw [hbad]
              rfl
            rw [hcl] at hts2
            exact Except.noConfusion hts2
        | ok bad =>
            have hcl : ∀ cdx, check_param_locations doc cdx
                = .ok (if (alookup cdx "impl.params.location.allowed").isSome then
                    [⟨"impl.params.location.allowed", bad.isEmpty,
                      if bad.isEmpty then "all parameter locations are valid"
                      else "invalid parameter locations: " ++ pyReprStrList bad⟩] else []) := by
              intro cdx
              unfold check_param_locations
              rw [hbad]
              rfl
            rw [hcl cd] at hts2
            rw [hcl cd'] at hts2'
            have he1 := Except.ok.inj hts2
            have he2 := Except.ok.inj hts2'
            have hL : ∀ cdx : CDefs,
                t ∉ (if (alookup cdx "impl.params.location.allowed").isSome then
                  [(⟨"impl.params.location.allowed", bad.isEmpty,
                    if bad.isEmpty then "all parameter locations are valid"
                    else "invalid parameter locations: " ++ pyReprStrList bad⟩ : Outcome)] else []) := by
              intro cdx hm
              by_cases hc : (alookup cdx "impl.params.location.allowed").isSome = true
              · simp only [hc, if_true, List.mem_singleton] at hm
                subst hm
                exact h2 rfl
              · simp [hc] at hm
            rw [← he1, ← he2]
            simp only [List.mem_append]
            have hMcd := hM cd
            have hMcd' := hM cd'
            have hADcd := hAD cd
            have hADcd' := hAD cd'
            have hLcd := hL cd
            have hLcd' := hL cd'
            simp only [iff_false_intro hMcd, iff_false_intro hMcd', iff_false_intro hADcd,
              iff_false_intro hADcd', iff_false_intro hLcd, iff_false_intro hLcd',
              or_false, false_or]

/-- A checklist index defining only the method-values id. -/
def c6_cd : CDefs :=
  [("impl.endpoint.method.allowed",
    JVal.obj [("id", JVal.str "impl.endpoint.method.allowed")])]

/-- The outcomes of running the rules on the empty document with `c6_cd`. -/
def c6_ts : List Outcome :=
  [⟨"impl.top_level.required_fields", false,
    "missing/invalid top-level fields: [\x27aiif_version\x27, \x27info\x27, \x27endpoints\x27, \x27aiif_version (must be non-empty string)\x27]"⟩,
   ⟨"impl.endpoint_name.unique", true, "endpoint names are unique"⟩,
   ⟨"impl.method_path.unique", true, "(method,path) pairs are unique"⟩,
   ⟨"impl.params.unique_by_name_location", true, "params are unique by (name,location)"⟩,
   ⟨"impl.endpoint.method.allowed", true, "all methods are allowed"⟩,
   ⟨"impl.endpoint.auth_required_supported", true, "all endpoints include auth_required"⟩,
   ⟨"impl.endpoint.response_content_type_supported", true, "all endpoints include response_content_type"⟩,
   ⟨"impl.params.constraints_published", true, "no params defined; constraint publication not applicable"⟩,
   ⟨"impl.agent_rules.consistent", true, "agent_rules not present (optional)"⟩]

/-- The outcomes of the same run against an empty checklist index. -/
def c6_ts2 : List Outcome :=
  [⟨"impl.top_level.required_fields", false,
    "missing/invalid top-level fields: [\x27aiif_version\x27, \x27info\x27, \x27endpoints\x27, \x27aiif_version (must be non-empty string)\x27]"⟩,
   ⟨"impl.endpoint_name.unique", true, "endpoint names are unique"⟩,
   ⟨"impl.method_path.unique", true, "(method,path) pairs are unique"⟩,
   ⟨"impl.params.unique_by_name_location", true, "params are unique by (name,location)"⟩,
   ⟨"impl.endpoint.auth_required_supported", true, "all endpoints include auth_required"⟩,
   ⟨"impl.endpoint.response_content_type_supported", true, "all endpoints include response_content_type"⟩,
   ⟨"impl.params.constraints_published", true, "no params defined; constraint publication not applicable"⟩,
   ⟨"impl.agent_rules.consistent", true, "agent_rules not present (optional)"⟩]

/-- Witness for conditional emission at two concrete runs that differ only
in whether the checklist defines the method-values id. -/
theorem conditional_emission_witness :
    (check_method_values [] c6_cd ≠ []
      ↔ (alookup c6_cd "impl.endpoint.method.allowed").isSome = true) ∧
    ((⟨"impl.endpoint.auth_required_supported", true,
        "all endpoints include auth_required"⟩ : Outcome) ∈ c6_ts
      ↔ (⟨"impl.endpoint.auth_required_supported", true,
          "all endpoints include auth_required"⟩ : Outcome) ∈ c6_ts2) :=
  ⟨(conditional_emission [] c6_cd []).1,
   (conditional_emission [] c6_cd []).2.2.2 c6_ts c6_ts2 rfl rfl _
     (by decide) (by decide) (by decide)⟩
